import Mathlib

/-!
Verification development for the Freak-n-Fries website repository
(`app.py`, `freeze.py`): a shallow embedding of the settings resolver,
the read-only data accessors and the static-export pipeline, with
theorems settling the specification's testable properties.

Conventions of the embedding:
* SQLite cell values are `Option String` (`none` models SQL NULL).
* The outcome of each SQL query is an input of the embedded function,
  ranging over `Except DBErr …`: `Except.error` models a `sqlite3.Error`
  raised by the query, `Except.ok` a successful result set.  A function
  whose embedded return type carries no `Except` therefore never
  propagates an error to its caller.
* Python dictionaries keyed by strings are association lists with unique
  keys (`mget` models `d[k]` / `k in d`).
-/

set_option autoImplicit false

namespace FreakNFries

/-- A SQLite cell value: `none` models SQL NULL. -/
abbrev Value := Option String

/-- A row or dictionary: association list from column/key names to values. -/
abbrev SettingsMap := List (String × Value)

/-- A generic `sqlite3.Error` raised by a query. -/
inductive DBErr where
  | err
  deriving DecidableEq, Repr

/-- Dictionary / row lookup: `mget m k` is `some v` when key `k` is present
with value `v` (first occurrence), `none` when the key is absent.  Models
both `row[k]` with presence test `k in row.keys()` and `k in dict`. -/
def mget : SettingsMap → String → Option Value
  | [], _ => none
  | p :: t, k => if p.1 = k then some p.2 else mget t k

/-- The built-in defaults of `get_site_settings` (app.py lines 65-71,
identical to the literals at lines 43-47 and 84-89). -/
def defaults : List (String × String) :=
  [("company_name", "Freak-n-Fries"),
   ("tagline", "Home of the Dutch frikandel in the US"),
   ("phone", "440 453 1877"),
   ("email", "info@freaknfries.com"),
   ("product_name", "Dutch Dawg®")]

/-- The five recognized settings keys. -/
def requiredKeys : List String := defaults.map Prod.fst

/-- Method 3 / outer-exception fallback: the full default settings
(app.py lines 84-90 and 95-101). -/
def defaultSettings : SettingsMap := defaults.map fun kd => (kd.1, some kd.2)

/-- `row[k] if k in row.keys() else d` (app.py lines 43-47): the row's
value (possibly NULL) when column `k` is present, else the default. -/
def colOr (row : SettingsMap) (k d : String) : Value :=
  match mget row k with
  | some v => v
  | none => some d

/-- Method 1's result dictionary built from the primary-shape row
(app.py lines 42-48). -/
def settingsFromRow (row : SettingsMap) : SettingsMap :=
  [("company_name", colOr row "company_name" "Freak-n-Fries"),
   ("tagline", colOr row "tagline" "Home of the Dutch frikandel in the US"),
   ("phone", colOr row "phone" "440 453 1877"),
   ("email", colOr row "email" "info@freaknfries.com"),
   ("product_name", colOr row "product_name" "Dutch Dawg®")]

/-- Python dict assignment `d[k] = v`: overwrite in place when the key is
present, append otherwise. -/
def dictSet (m : SettingsMap) (k : String) (v : Value) : SettingsMap :=
  if (mget m k).isSome then m.map (fun p => if p.1 = k then (k, v) else p)
  else m ++ [(k, v)]

/-- Method 2's dictionary built by iterating over the key/value rows
(app.py lines 60-62): `site_settings[row['key']] = row['value']`. -/
def buildKV (rows : SettingsMap) : SettingsMap :=
  rows.foldl (fun m r => dictSet m r.1 r.2) []

/-- One iteration of the defaults-filling loop (app.py lines 73-75):
`if key not in site_settings: site_settings[key] = default_value`. -/
def fillStep (m : SettingsMap) (kd : String × String) : SettingsMap :=
  if (mget m kd.1).isSome then m else m ++ [(kd.1, some kd.2)]

/-- The defaults-filling loop of Method 2 (app.py lines 73-75). -/
def fillDefaults (m : SettingsMap) : SettingsMap := defaults.foldl fillStep m

/-- The outcomes of the two settings queries an invocation of
`get_site_settings` can observe, over a given connection:
`q1` is `SELECT * FROM settings WHERE id = 1` (`fetchone`: `none` when no
row matched), `q2` is `SELECT key, value FROM settings` (`fetchall`).
An `Except.error` models the query raising `sqlite3.Error` (for example
because the table is missing or lacks the selected columns). -/
structure SettingsDB where
  q1 : Except DBErr (Option SettingsMap)
  q2 : Except DBErr SettingsMap

/-- `get_site_settings` (app.py lines 32-106), given a connection: try the
primary-shape row and return immediately on success; on query error or no
row, try the key/value shape; if that errors or returns no rows, fall back
to the built-in defaults.  Total: no outcome of the queries propagates an
error to the caller. -/
def get_site_settings (db : SettingsDB) : SettingsMap :=
  match db.q1 with
  | .ok (some row) => settingsFromRow row
  | _ =>
    match db.q2 with
    | .ok rows => if rows.isEmpty then defaultSettings else fillDefaults (buildKV rows)
    | .error _ => defaultSettings

/-- Whether the store (under the strategy `get_site_settings` ends up
taking on `db`) itself supplies a value for key `k`. -/
def storeHasKey (db : SettingsDB) (k : String) : Bool :=
  match db.q1 with
  | .ok (some row) => (mget row k).isSome
  | _ =>
    match db.q2 with
    | .ok rows => if rows.isEmpty then false else (mget (buildKV rows) k).isSome
    | .error _ => false

/-- Two key lists contain the same keys (the spec's "key set is exactly"). -/
def sameKeySet (a b : List String) : Bool :=
  a.all (fun k => b.contains k) && b.all (fun k => a.contains k)

/-- A value that is present and a non-empty string. -/
def valueNonEmpty : Value → Bool
  | some s => !(s == "")
  | none => false

/-- A row of the `pages` table: a unique `slug` plus the remaining
columns (title, metadata, …) selected by `SELECT *`. -/
structure PageRow where
  slug : String
  fields : SettingsMap
  deriving DecidableEq, Repr

/-- A row of the `page_content` table: a unique `page_name` plus the
remaining content columns. -/
structure ContentRow where
  page_name : String
  fields : SettingsMap
  deriving DecidableEq, Repr

/-- `get_page` (app.py lines 108-118): `SELECT * FROM pages WHERE slug = ?`
then `fetchone`; the input is the outcome of the query over the table's
rows: on `sqlite3.Error` it logs and returns `None`; otherwise the first
matching row or `None`.  Total — never raises. -/
def get_page (st : Except DBErr (List PageRow)) (slug : String) : Option PageRow :=
  match st with
  | .ok rows => rows.find? fun p => p.slug == slug
  | .error _ => none

/-- `get_page_content` (app.py lines 120-130): same shape as `get_page`
over the `page_content` table, matched on `page_name`. -/
def get_page_content (st : Except DBErr (List ContentRow)) (page_name : String) :
    Option ContentRow :=
  match st with
  | .ok rows => rows.find? fun c => c.page_name == page_name
  | .error _ => none

/-- A row of the `retailers` table: `name`, `category` plus the remaining
locator/contact columns. -/
structure Retailer where
  name : String
  category : String
  fields : SettingsMap
  deriving DecidableEq, Repr

/-- The comparison `ORDER BY name` sorts by: lexicographic order on the
name's character sequence (the order `String`'s `<` is defined from). -/
def retailerLE (a b : Retailer) : Prop := a.name.data ≤ b.name.data

instance retailerLE.dec : DecidableRel retailerLE :=
  fun a b => inferInstanceAs (Decidable (a.name.data ≤ b.name.data))

instance retailerLE.total : IsTotal Retailer retailerLE :=
  ⟨fun a b => le_total a.name.data b.name.data⟩

instance retailerLE.trans : IsTrans Retailer retailerLE :=
  ⟨fun _ _ _ h₁ h₂ => le_trans h₁ h₂⟩

/-- `ORDER BY name` on the result set: sort ascending by `name`. -/
def orderByName (rows : List Retailer) : List Retailer :=
  List.insertionSort retailerLE rows

/-- `get_retailers_by_category` (app.py lines 132-142):
`SELECT * FROM retailers WHERE category = ? ORDER BY name` then `fetchall`;
on `sqlite3.Error` it logs and returns `[]`.  Total — never raises. -/
def get_retailers_by_category (st : Except DBErr (List Retailer)) (category : String) :
    List Retailer :=
  match st with
  | .ok rows => orderByName (rows.filter fun r => r.category == category)
  | .error _ => []

/-- A row of the `testimonials` table: the `active` flag (stored as 0/1,
compared against 1 by the query) and the remaining content columns. -/
structure Testimonial where
  active : Bool
  text : String
  deriving DecidableEq, Repr

/-- `get_testimonials` (app.py lines 156-166):
`SELECT * FROM testimonials WHERE active = 1` then `fetchall`; on
`sqlite3.Error` it logs and returns `[]`.  Total — never raises. -/
def get_testimonials (st : Except DBErr (List Testimonial)) : List Testimonial :=
  match st with
  | .ok rows => rows.filter fun t => t.active
  | .error _ => []

/-- The single testimonial the home route passes to its template
(app.py line 190): `testimonials[0] if testimonials else None`. -/
def index_testimonial (st : Except DBErr (List Testimonial)) : Option Testimonial :=
  (get_testimonials st).head?

/-! ## Static exporter (freeze.py)

The build directory is modelled as the list of relative paths of the
files it contains. -/

/-- The module-level names defined by `app.py` (the `app` module). -/
def appModuleDefs : List String :=
  ["app", "DATABASE", "get_db_connection", "get_site_settings", "get_page",
   "get_page_content", "get_retailers_by_category", "get_all_retailers",
   "get_testimonials", "strftime_filter", "inject_global_vars", "index",
   "about", "where_to_buy", "admin", "not_found", "internal_error",
   "get_local_ip"]

/-- Whether `from app import init_db` (freeze.py line 169) can succeed:
it requires the `app` module to define `init_db`. -/
def appHasInitDb : Bool := appModuleDefs.contains "init_db"

/-- The five expected output paths of `validate_build`
(freeze.py lines 108-114). -/
def requiredFiles : List String :=
  ["index.html", "about/index.html", "where-to-buy/index.html",
   "static/css/style.css", "static/js/main.js"]

/-- The contents of the static asset source directories the exporter
enumerates: the files under `static/css`, `static/js` and, when the
directory exists, `static/images` (freeze.py lines 20-33). -/
structure StaticAssets where
  css : List String
  js : List String
  images : Option (List String)
  deriving DecidableEq, Repr

/-- Modelled from the spec: the file set written by `freezer.freeze()` —
`flask_frozen` is an external library whose code is not part of this
repository.  Per spec §4.4 (b)-(c), every manifest route ("/", "/about",
"/where-to-buy") is rendered and persisted under the
trailing-slash/index convention, and every enumerated static asset is
copied to its mirrored output location. -/
def freezeOutputs (assets : StaticAssets) : List String :=
  ["index.html", "about/index.html", "where-to-buy/index.html"]
    ++ assets.css.map (fun f => "static/css/" ++ f)
    ++ assets.js.map (fun f => "static/js/" ++ f)
    ++ (match assets.images with
        | some imgs => imgs.map fun f => "static/images/" ++ f
        | none => [])

/-- `clean_build_directory` (freeze.py lines 131-139): remove the build
directory when it exists (`shutil.rmtree`) and recreate it empty; the
result never depends on the previous contents. -/
def clean_build_directory (_prev : Option (List String)) : List String := []

/-- `prepare_build_directory` (freeze.py lines 43-88): write `.nojekyll`,
`robots.txt` and `sitemap.xml` into the build directory. -/
def prepare_build_directory (fs : List String) : List String :=
  fs ++ [".nojekyll", "robots.txt", "sitemap.xml"]

/-- `optimize_static_files` (freeze.py lines 90-102): prints only, writes
nothing. -/
def optimize_static_files (fs : List String) : List String := fs

/-- The record written to `deployment-info.json`
(freeze.py lines 145-158). -/
structure DeploymentInfo where
  generated_at : String
  python_version : String
  flask_version : String
  pages_generated : List String
  deployment_target : String
  instructions : List String
  deriving DecidableEq, Repr

/-- `generate_deployment_info`'s record (freeze.py lines 145-158): only
the timestamp and the two runtime version strings come from the
environment; every other field is a literal constant. -/
def deployment_info (now pyver flver : String) : DeploymentInfo :=
  ⟨now, pyver, flver,
   ["/", "/about", "/where-to-buy"],
   "GitHub Pages",
   ["1. Commit all files in the build/ directory to your repository",
    "2. Push to the main branch",
    "3. Enable GitHub Pages in repository settings",
    "4. Set source to \"Deploy from a branch\" and select \"main\" branch",
    "5. Your site will be available at https://yourusername.github.io/repository-name/"]⟩

/-- The deployment-info record produced during a run of the exporter:
`generate_deployment_info` (called at freeze.py line 183) reads nothing
from the build directory, the previous state or the freeze results. -/
def run_deployment_info (_prev : Option (List String)) (_assets : StaticAssets)
    (now pyver flver : String) : DeploymentInfo :=
  deployment_info now pyver flver

/-- The file written by `generate_deployment_info`
(freeze.py lines 160-162). -/
def generate_deployment_info_files (fs : List String) : List String :=
  fs ++ ["deployment-info.json"]

/-- `validate_build` (freeze.py lines 104-129): the list of required
files missing from the build directory (reported by name), paired with
the success flag (`True` iff nothing is missing).  Total — never raises. -/
def validate_build (fs : List String) : List String × Bool :=
  let missing := requiredFiles.filter fun p => !(fs.contains p)
  (missing, missing.isEmpty)

/-- The tail of `main` (freeze.py lines 186-199): run the validation and
return 0 on success, 1 on failure (the value passed to `exit(...)` at
line 202), alongside the reported missing list. -/
def finish_build (fs : List String) : List String × Nat :=
  let v := validate_build fs
  (v.1, if v.2 then 0 else 1)

/-- The export pipeline from `clean_build_directory` onward
(freeze.py lines 172-199): clean, freeze, prepare, optimize, write the
deployment manifest, then validate; returns the final build-directory
contents and the exit status. -/
def mainPipeline (prev : Option (List String)) (assets : StaticAssets) :
    List String × Nat :=
  let fs0 := clean_build_directory prev
  let fs1 := fs0 ++ freezeOutputs assets
  let fs2 := prepare_build_directory fs1
  let fs3 := optimize_static_files fs2
  let fs4 := generate_deployment_info_files fs3
  (fs4, (finish_build fs4).2)

/-- An error that aborts `main` before the pipeline runs. -/
inductive ExportError where
  | importError
  deriving DecidableEq, Repr

/-- `main` (freeze.py lines 164-199): it first executes
`from app import init_db` (line 169), which raises `ImportError` when the
`app` module does not define `init_db`; only then does the pipeline run. -/
def main (prev : Option (List String)) (assets : StaticAssets) :
    Except ExportError (List String × Nat) :=
  if appHasInitDb then .ok (mainPipeline prev assets) else .error .importError

/-! ## Lemmas about the settings resolver -/

theorem mget_append (l₁ l₂ : SettingsMap) (k : String) :
    mget (l₁ ++ l₂) k = (mget l₁ k).or (mget l₂ k) := by
  induction l₁ with
  | nil => simp [mget]
  | cons p t ih => by_cases h : p.1 = k <;> simp [mget, h, ih]

theorem fillStep_mget_self (m : SettingsMap) (k d : String) (h : mget m k = none) :
    mget (fillStep m (k, d)) k = some (some d) := by
  simp [fillStep, h, mget_append, mget]

theorem fillStep_mget_of_isSome (m : SettingsMap) (k : String) (kd : String × String)
    (h : (mget m k).isSome) : mget (fillStep m kd) k = mget m k := by
  unfold fillStep
  by_cases h2 : (mget m kd.1).isSome
  · simp [h2]
  · cases hm : mget m k with
    | none => rw [hm] at h; simp at h
    | some v => simp [h2, mget_append, hm]

theorem fillStep_mget_none (m : SettingsMap) (k : String) (kd : String × String)
    (hne : k ≠ kd.1) (h : mget m k = none) : mget (fillStep m kd) k = none := by
  unfold fillStep
  by_cases h2 : (mget m kd.1).isSome
  · simp [h2, h]
  · simp [h2, mget_append, h, mget, Ne.symm hne]

theorem foldl_fillStep_preserve (ds : List (String × String)) (m : SettingsMap)
    (k : String) (h : (mget m k).isSome) :
    mget (ds.foldl fillStep m) k = mget m k := by
  induction ds generalizing m with
  | nil => rfl
  | cons d t ih =>
    have hstep := fillStep_mget_of_isSome m k d h
    rw [List.foldl_cons, ih (fillStep m d) (by rw [hstep]; exact h), hstep]

theorem isSome_false_eq_none {α : Type} {v : Option α} (h : v.isSome = false) :
    v = none := by
  cases v with
  | none => rfl
  | some _ => simp at h

theorem foldl_fillStep_mget (ds : List (String × String)) (kd : String × String) :
    ∀ m : SettingsMap, kd ∈ ds → (ds.map Prod.fst).Nodup → mget m kd.1 = none →
      mget (ds.foldl fillStep m) kd.1 = some (some kd.2) := by
  induction ds with
  | nil => intro m hmem _ _; cases hmem
  | cons d t ih =>
    intro m hmem hnodup h
    rw [List.map_cons] at hnodup
    have hnd := List.nodup_cons.mp hnodup
    rw [List.foldl_cons]
    rcases List.mem_cons.mp hmem with heq | hmem'
    · subst heq
      have h1 : mget (fillStep m kd) kd.1 = some (some kd.2) := by
        cases kd with
        | mk k dv => exact fillStep_mget_self m k dv h
      rw [foldl_fillStep_preserve t _ _ (by rw [h1]; rfl), h1]
    · have hne : kd.1 ≠ d.1 := by
        intro hcontr
        exact hnd.1 (hcontr ▸ List.mem_map_of_mem Prod.fst hmem')
      exact ih (fillStep m d) hmem' hnd.2 (fillStep_mget_none m kd.1 d hne h)

theorem fillDefaults_mget_of_isSome (m : SettingsMap) (k : String)
    (h : (mget m k).isSome) : mget (fillDefaults m) k = mget m k :=
  foldl_fillStep_preserve defaults m k h

theorem fillDefaults_mget_of_none (m : SettingsMap) (kd : String × String)
    (hmem : kd ∈ defaults) (h : mget m kd.1 = none) :
    mget (fillDefaults m) kd.1 = some (some kd.2) :=
  foldl_fillStep_mget defaults kd m hmem (by decide) h

theorem defaultSettings_mget (kd : String × String) (hmem : kd ∈ defaults) :
    mget defaultSettings kd.1 = some (some kd.2) := by
  simp only [defaults, List.mem_cons, List.not_mem_nil, or_false] at hmem
  rcases hmem with rfl | rfl | rfl | rfl | rfl <;> rfl

theorem settingsFromRow_mget (row : SettingsMap) (kd : String × String)
    (hmem : kd ∈ defaults) :
    mget (settingsFromRow row) kd.1 = some (colOr row kd.1 kd.2) := by
  simp only [defaults, List.mem_cons, List.not_mem_nil, or_false] at hmem
  rcases hmem with rfl | rfl | rfl | rfl | rfl <;> simp [settingsFromRow, mget]

/-- Shared helper: whatever strategy is taken, every recognized key the
store does not supply is bound to its built-in default. -/
theorem settings_default_of_absent (db : SettingsDB) (kd : String × String)
    (hmem : kd ∈ defaults) (habs : storeHasKey db kd.1 = false) :
    mget (get_site_settings db) kd.1 = some (some kd.2) := by
  obtain ⟨q1, q2⟩ := db
  have hkv : ∀ rows : SettingsMap,
      (if rows.isEmpty then false else (mget (buildKV rows) kd.1).isSome) = false →
      mget (if rows.isEmpty then defaultSettings else fillDefaults (buildKV rows)) kd.1
        = some (some kd.2) := by
    intro rows hr
    by_cases he : rows.isEmpty
    · rw [if_pos he]
      exact defaultSettings_mget kd hmem
    · rw [if_neg he] at hr ⊢
      exact fillDefaults_mget_of_none _ kd hmem (isSome_false_eq_none hr)
  cases q1 with
  | ok o =>
    cases o with
    | some row =>
      simp only [storeHasKey] at habs
      simp only [get_site_settings]
      rw [settingsFromRow_mget row kd hmem]
      simp [colOr, isSome_false_eq_none habs]
    | none =>
      cases q2 with
      | ok rows =>
        simp only [storeHasKey] at habs
        simp only [get_site_settings]
        exact hkv rows habs
      | error e =>
        simp only [get_site_settings]
        exact defaultSettings_mget kd hmem
  | error e1 =>
    cases q2 with
    | ok rows =>
      simp only [storeHasKey] at habs
      simp only [get_site_settings]
      exact hkv rows habs
    | error e =>
      simp only [get_site_settings]
      exact defaultSettings_mget kd hmem

/-- Shared helper: every recognized key is present in the result, for
every store state and every query outcome. -/
theorem settings_complete_keys (db : SettingsDB) (k : String)
    (hk : k ∈ requiredKeys) : (mget (get_site_settings db) k).isSome := by
  obtain ⟨kd, hkd, hkeq⟩ := List.mem_map.mp hk
  subst hkeq
  by_cases habs : storeHasKey db kd.1
  · obtain ⟨q1, q2⟩ := db
    have hkv : ∀ rows : SettingsMap,
        (if rows.isEmpty then false else (mget (buildKV rows) kd.1).isSome) = true →
        (mget (if rows.isEmpty then defaultSettings else fillDefaults (buildKV rows))
          kd.1).isSome := by
      intro rows hr
      by_cases he : rows.isEmpty
      · rw [if_pos he] at hr
        simp at hr
      · rw [if_neg he] at hr ⊢
        rw [fillDefaults_mget_of_isSome _ kd.1 hr]
        exact hr
    cases q1 with
    | ok o =>
      cases o with
      | some row =>
        simp only [get_site_settings]
        rw [settingsFromRow_mget row kd hkd]
        rfl
      | none =>
        cases q2 with
        | ok rows =>
          simp only [storeHasKey] at habs
          simp only [get_site_settings]
          exact hkv rows habs
        | error e => simp [storeHasKey] at habs
    | error e1 =>
      cases q2 with
      | ok rows =>
        simp only [storeHasKey] at habs
        simp only [get_site_settings]
        exact hkv rows habs
      | error e => simp [storeHasKey] at habs
  · rw [settings_default_of_absent db kd hkd (by simpa using habs)]
    rfl

/-! ## Claim theorems: settings resolver -/

/-- Claim C1: for every state of the settings store and every outcome of
the underlying queries (including query errors at any step),
`get_site_settings` never propagates an error to its caller — its
embedding is total, with query errors ranging over the `Except.error`
inputs — and always returns a result containing all five recognized
settings keys. -/
theorem resolve_settings_total_and_complete (db : SettingsDB) :
    ∀ k ∈ requiredKeys, (mget (get_site_settings db) k).isSome :=
  fun k hk => settings_complete_keys db k hk

theorem resolve_settings_total_and_complete_witness :
    (mget (get_site_settings ⟨.error .err, .error .err⟩) "company_name").isSome :=
  resolve_settings_total_and_complete ⟨.error .err, .error .err⟩ "company_name" (by decide)

/-- A key/value-shape store state containing an unrecognized key and an
empty value for a recognized key: the primary-shape query fails (no `id`
column), the key/value query returns the two rows. -/
def kvOnlyDB : SettingsDB :=
  ⟨.error .err, .ok [("company_name", some ""), ("extra", some "x")]⟩

/-- Claim C2 as stated is false: on the key/value-shape state `kvOnlyDB`
the returned mapping's key set is not exactly the five recognized keys
(it also contains `"extra"`), and not every value in it is non-empty
(`company_name` is bound to the stored empty string). -/
theorem resolve_settings_exact_keys_counterexample :
    ¬ (sameKeySet ((get_site_settings kvOnlyDB).map Prod.fst) requiredKeys = true ∧
       (get_site_settings kvOnlyDB).all (fun p => valueNonEmpty p.2) = true) := by
  decide

/-- Claim C2 (amended): for every settings-store state the returned
mapping's key set contains (at least) the five recognized keys, and every
recognized key the store does not itself supply is bound to its built-in
default, which is a non-empty string; values supplied by the store are
passed through verbatim, so they may be empty, and the key/value shape
may contribute additional keys. -/
theorem resolve_settings_keys_superset_defaults (db : SettingsDB) :
    (∀ k ∈ requiredKeys, (mget (get_site_settings db) k).isSome) ∧
    (∀ kd ∈ defaults, storeHasKey db kd.1 = false →
      mget (get_site_settings db) kd.1 = some (some kd.2)) ∧
    (∀ kd ∈ defaults, kd.2 ≠ "") :=
  ⟨fun k hk => settings_complete_keys db k hk,
   fun kd hmem habs => settings_default_of_absent db kd hmem habs,
   by decide⟩

theorem resolve_settings_keys_superset_defaults_witness :
    (mget (get_site_settings kvOnlyDB) "tagline").isSome ∧
    mget (get_site_settings kvOnlyDB) "tagline"
      = some (some "Home of the Dutch frikandel in the US") :=
  ⟨(resolve_settings_keys_superset_defaults kvOnlyDB).1 "tagline" (by decide),
   (resolve_settings_keys_superset_defaults kvOnlyDB).2.1
     ("tagline", "Home of the Dutch frikandel in the US") (by decide) (by decide)⟩

/-- Claim C3: when the primary-shape query succeeds and returns the
fixed-identity row, the result is built from that row alone — it is
independent of the key/value-query outcome, so neither the key/value
strategy nor the default strategy is attempted — and for each of the five
recognized keys the value is the row's value when the column is present
and the (non-null) built-in default when it is absent. -/
theorem settings_primary_shape (row : SettingsMap) (q2 q2' : Except DBErr SettingsMap) :
    get_site_settings ⟨.ok (some row), q2⟩ = settingsFromRow row ∧
    get_site_settings ⟨.ok (some row), q2⟩ = get_site_settings ⟨.ok (some row), q2'⟩ ∧
    ∀ kd ∈ defaults,
      (mget row kd.1 = none →
        mget (get_site_settings ⟨.ok (some row), q2⟩) kd.1 = some (some kd.2)) ∧
      (∀ v, mget row kd.1 = some v →
        mget (get_site_settings ⟨.ok (some row), q2⟩) kd.1 = some v) := by
  refine ⟨rfl, rfl, fun kd hmem => ⟨fun h => ?_, fun v h => ?_⟩⟩
  · have : get_site_settings ⟨.ok (some row), q2⟩ = settingsFromRow row := rfl
    rw [this, settingsFromRow_mget row kd hmem]
    simp [colOr, h]
  · have : get_site_settings ⟨.ok (some row), q2⟩ = settingsFromRow row := rfl
    rw [this, settingsFromRow_mget row kd hmem]
    simp [colOr, h]

theorem settings_primary_shape_witness :
    mget (get_site_settings ⟨.ok (some [("company_name", some "Acme")]), .error .err⟩)
      "company_name" = some (some "Acme") ∧
    mget (get_site_settings ⟨.ok (some [("company_name", some "Acme")]), .error .err⟩)
      "tagline" = some (some "Home of the Dutch frikandel in the US") :=
  ⟨((settings_primary_shape [("company_name", some "Acme")] (.error .err)
      (.ok [])).2.2 ("company_name", "Freak-n-Fries") (by decide)).2
      (some "Acme") (by decide),
   ((settings_primary_shape [("company_name", some "Acme")] (.error .err)
      (.ok [])).2.2 ("tagline", "Home of the Dutch frikandel in the US")
      (by decide)).1 (by decide)⟩

/-! ## Claim theorems: page, retailer and testimonial accessors -/

/-- Claim C4: `get_page` and `get_page_content` are total (their
embedded return type carries no error: on a data-access error, modelled
by the `Except.error` input, they return `none` rather than raising) and
return `none` whenever no record matches the requested slug / page name. -/
theorem get_page_absent_not_error
    (pst : Except DBErr (List PageRow)) (cst : Except DBErr (List ContentRow))
    (slug page_name : String) :
    (∀ rows, pst = .ok rows → (∀ r ∈ rows, r.slug ≠ slug) →
      get_page pst slug = none) ∧
    (∀ e, pst = .error e → get_page pst slug = none) ∧
    (∀ rows, cst = .ok rows → (∀ r ∈ rows, r.page_name ≠ page_name) →
      get_page_content cst page_name = none) ∧
    (∀ e, cst = .error e → get_page_content cst page_name = none) := by
  refine ⟨?_, ?_, ?_, ?_⟩
  · rintro rows rfl hne
    simp only [get_page, List.find?_eq_none, beq_iff_eq]
    exact hne
  · rintro e rfl
    rfl
  · rintro rows rfl hne
    simp only [get_page_content, List.find?_eq_none, beq_iff_eq]
    exact hne
  · rintro e rfl
    rfl

theorem get_page_absent_not_error_witness :
    get_page (.ok [⟨"about", []⟩, ⟨"where-to-buy", []⟩]) "nonexistent-slug" = none ∧
    get_page_content (.ok [⟨"home", []⟩]) "nonexistent-name" = none :=
  ⟨(get_page_absent_not_error (.ok [⟨"about", []⟩, ⟨"where-to-buy", []⟩])
      (.ok [⟨"home", []⟩]) "nonexistent-slug" "nonexistent-name").1
      [⟨"about", []⟩, ⟨"where-to-buy", []⟩] rfl (by decide),
   (get_page_absent_not_error (.ok [⟨"about", []⟩, ⟨"where-to-buy", []⟩])
      (.ok [⟨"home", []⟩]) "nonexistent-slug" "nonexistent-name").2.2.1
      [⟨"home", []⟩] rfl (by decide)⟩

/-- Claim C5: `get_retailers_by_category` returns exactly the rows whose
category equals the argument (a permutation of that filter of the table),
ordered by name ascending, and returns `[]` on a data-access error. -/
theorem retailers_by_category_filter_sorted (rows : List Retailer)
    (category : String) (e : DBErr) :
    (∀ r ∈ get_retailers_by_category (.ok rows) category, r.category = category) ∧
    List.Perm (get_retailers_by_category (.ok rows) category)
      (rows.filter fun r => r.category == category) ∧
    List.Sorted retailerLE (get_retailers_by_category (.ok rows) category) ∧
    get_retailers_by_category (.error e) category = [] := by
  have hred : get_retailers_by_category (.ok rows) category
      = List.insertionSort retailerLE (rows.filter fun r => r.category == category) := rfl
  refine ⟨?_, ?_, ?_, rfl⟩
  · intro r hr
    rw [hred] at hr
    have hmem := (List.perm_insertionSort retailerLE
      (rows.filter fun r => r.category == category)).mem_iff.mp hr
    have := (List.mem_filter.mp hmem).2
    simpa using this
  · rw [hred]
    exact List.perm_insertionSort _ _
  · rw [hred]
    exact List.sorted_insertionSort _ _

/-- The two retailers of the spec's worked example. -/
def alphaStore : Retailer := ⟨"Alpha Store", "online", []⟩

def betaStore : Retailer := ⟨"Beta Store", "online", []⟩

theorem retailers_by_category_filter_sorted_witness :
    get_retailers_by_category (.ok [betaStore, alphaStore]) "online"
      = [alphaStore, betaStore] ∧
    alphaStore.category = "online" :=
  ⟨by decide,
   (retailers_by_category_filter_sorted [betaStore, alphaStore] "online" .err).1
     alphaStore (by decide)⟩

/-- Claim C6: `get_testimonials` returns exactly the rows with
`active = true` (every returned row is active, every active row is
returned, inactive rows are excluded even when active rows coexist),
returns `[]` on a data-access error, and the home route surfaces only the
head of that active list. -/
theorem testimonials_active_filter (rows : List Testimonial) (e : DBErr) :
    get_testimonials (.ok rows) = rows.filter (fun t => t.active) ∧
    (∀ t ∈ get_testimonials (.ok rows), t.active = true) ∧
    (∀ t ∈ rows, t.active = true → t ∈ get_testimonials (.ok rows)) ∧
    index_testimonial (.ok rows) = (rows.filter (fun t => t.active)).head? ∧
    get_testimonials (.error e) = [] := by
  refine ⟨rfl, ?_, ?_, rfl, rfl⟩
  · intro t ht
    exact (List.mem_filter.mp ht).2
  · intro t ht ha
    exact List.mem_filter.mpr ⟨ht, ha⟩

/-- The two testimonials of the spec's worked example. -/
def greatT : Testimonial := ⟨true, "Great!"⟩

def mehT : Testimonial := ⟨false, "Meh"⟩

theorem testimonials_active_filter_witness :
    index_testimonial (.ok [greatT, mehT]) = some greatT ∧
    greatT ∈ get_testimonials (.ok [greatT, mehT]) ∧
    mehT ∉ get_testimonials (.ok [greatT, mehT]) :=
  ⟨by rw [(testimonials_active_filter [greatT, mehT] .err).2.2.2.1]; rfl,
   (testimonials_active_filter [greatT, mehT] .err).2.2.1 greatT (by decide) (by decide),
   by decide⟩

/-! ## Claim theorems: static exporter -/

/-- Claim C7 (code bug in the exporter's entry point): every run of
`main` fails with `ImportError` before any file is produced, because
`from app import init_db` (freeze.py line 169) names a function the `app`
module does not define — so no run produces the output tree the claim
describes.  The second conjunct shows the pipeline the code intends
(everything from `clean_build_directory` onward) would produce all five
validated paths once the init step is reachable, for asset directories
holding the expected CSS and JS bundles. -/
theorem freeze_main_import_error :
    (∀ prev assets, main prev assets = .error .importError) ∧
    requiredFiles.all (fun p =>
      (mainPipeline none ⟨["style.css"], ["main.js"], none⟩).1.contains p) = true :=
  ⟨fun _ _ => rfl, by decide⟩

/-- Claim C8: the validation step reports exactly the required paths
missing from the generated tree, each by name, in a list (its embedding
is total — it never raises), and the exporter completes with exit status
1 when anything is missing and 0 when nothing is. -/
theorem validate_build_exit_status (fs : List String) :
    (∀ p ∈ requiredFiles, p ∉ fs → p ∈ (validate_build fs).1) ∧
    (∀ p ∈ (validate_build fs).1, p ∈ requiredFiles ∧ p ∉ fs) ∧
    ((finish_build fs).2 = 0 ↔ (validate_build fs).1 = []) ∧
    ((validate_build fs).1 ≠ [] → (finish_build fs).2 = 1) := by
  refine ⟨?_, ?_, ?_, ?_⟩
  · intro p hp hnot
    simp only [validate_build, List.mem_filter]
    exact ⟨hp, by simpa using hnot⟩
  · intro p hp
    simp only [validate_build, List.mem_filter] at hp
    exact ⟨hp.1, by simpa using hp.2⟩
  · simp only [finish_build, validate_build]
    by_cases he : (requiredFiles.filter fun p => !(fs.contains p)).isEmpty
    · simp [he, List.isEmpty_iff.mp he]
    · simp only [he, if_false]
      simp [List.isEmpty_iff] at he
      simp [he]
  · intro hne
    simp only [finish_build, validate_build] at hne ⊢
    rw [if_neg (by simpa [List.isEmpty_iff] using hne)]

/-- A generated tree from which `about/index.html` was deleted before
validation. -/
def partialBuild : List String :=
  ["index.html", "where-to-buy/index.html", "static/css/style.css",
   "static/js/main.js", ".nojekyll", "robots.txt", "sitemap.xml",
   "deployment-info.json"]

theorem validate_build_exit_status_witness :
    "about/index.html" ∈ (validate_build partialBuild).1 ∧
    (finish_build partialBuild).2 = 1 :=
  ⟨(validate_build_exit_status partialBuild).1 "about/index.html"
      (by decide) (by decide),
   (validate_build_exit_status partialBuild).2.2.2 (by decide)⟩

/-- Claim C9: the export output never depends on the previous contents of
the target directory — the pipeline starts by removing and recreating it —
so two sequential exports over the same store state produce identical file
sets, and stale files from an earlier differently-shaped run are absent
afterwards unless the run itself produces them. -/
theorem export_idempotent_clean (prev : Option (List String)) (stale : List String)
    (assets : StaticAssets) :
    (mainPipeline (some (mainPipeline prev assets).1) assets).1
      = (mainPipeline prev assets).1 ∧
    (mainPipeline (some stale) assets).1 = (mainPipeline none assets).1 ∧
    (∀ f ∈ stale, f ∉ (mainPipeline none assets).1 →
      f ∉ (mainPipeline (some stale) assets).1) :=
  ⟨rfl, rfl, fun _ _ hnot => hnot⟩

theorem export_idempotent_clean_witness :
    "stale.txt" ∉ (mainPipeline (some ["stale.txt"])
      ⟨["style.css"], ["main.js"], none⟩).1 :=
  (export_idempotent_clean none ["stale.txt"] ⟨["style.css"], ["main.js"], none⟩).2.2
    "stale.txt" (by decide) (by decide)

/-- Claim C10: the deployment-info manifest written during a run records
the fixed constant page list and fixed target-platform and instruction
strings, independent of the previous build state and of the assets (and
so of which pages were actually rendered): only the timestamp and runtime
version strings vary. -/
theorem deployment_info_constant (prev prev' : Option (List String))
    (a a' : StaticAssets) (now pyver flver : String) :
    run_deployment_info prev a now pyver flver
      = run_deployment_info prev' a' now pyver flver ∧
    (run_deployment_info prev a now pyver flver).pages_generated
      = ["/", "/about", "/where-to-buy"] ∧
    (run_deployment_info prev a now pyver flver).deployment_target
      = "GitHub Pages" ∧
    (run_deployment_info prev a now pyver flver).instructions
      = ["1. Commit all files in the build/ directory to your repository",
         "2. Push to the main branch",
         "3. Enable GitHub Pages in repository settings",
         "4. Set source to \"Deploy from a branch\" and select \"main\" branch",
         "5. Your site will be available at https://yourusername.github.io/repository-name/"] :=
  ⟨rfl, rfl, rfl, rfl⟩

end FreakNFries
